import Mathlib

/-!
# Verification of the Algora product pipeline core

Shallow embedding of the core of the Algora marketing-automation pipeline:

* `src/analyze/scoring.py` — landed-cost estimation and the deterministic
  multi-factor scoring function (`estimate_costs`, `compute_scores`,
  `analyze_product`);
* `src/collect/wb_analytics.py` — the Wildberries market-data client with
  per-term caching and exponential-backoff retry on HTTP 429;
* `src/collect/alibaba_1688.py` — the 1688.com collector's item mapping and
  filtering;
* `src/db.py` — the publish-ledger queries used by the selection stage;
* `scripts/run_pipeline.py` — the exclusion / ranking / top-N selection and
  the image-deduplication step.

Python floats are modelled as exact rationals (`ℚ`); Python's `round(x, n)`
is modelled as rounding `x * 10^n` to the nearest integer (`roundTo`).
Machine integers are modelled as `ℤ`.  I/O (HTTP responses, translation,
current time) is passed in explicitly as data.
-/

/-- Python's `round(x, d)` modelled over exact rationals: round `x` to `d`
decimal places (ties resolved by `round`, i.e. half-up). -/
def roundTo (d : ℕ) (x : ℚ) : ℚ :=
  (round (x * 10 ^ d) : ℤ) / 10 ^ d

/- ### Scoring weights, from `src/config.py` -/

/-- `TREND_WEIGHT = 0.35` from `src/config.py`. -/
def TREND_WEIGHT : ℚ := 0.35

/-- `COMPETITION_WEIGHT = 0.25` from `src/config.py`. -/
def COMPETITION_WEIGHT : ℚ := 0.25

/-- `MARGIN_WEIGHT = 0.30` from `src/config.py`. -/
def MARGIN_WEIGHT : ℚ := 0.30

/-- `RELIABILITY_WEIGHT = 0.10` from `src/config.py`. -/
def RELIABILITY_WEIGHT : ℚ := 0.10

/-- `CNY_TO_RUB = CNY_TO_RUB_FALLBACK = 12.5` from `src/config.py`. -/
def CNY_TO_RUB : ℚ := 12.5

/- ### Data model, from `src/models.py` -/

/-- `RawProduct` from `src/models.py`: a product as collected from a source
(the collectors additionally populate `wb_keyword` / `wb_est_price`, which
the pipeline reads from raw products).  `collected_at` is dropped: no claim
depends on the collection timestamp. -/
structure RawProduct where
  source : String := ""
  source_url : String
  title_cn : String := ""
  title_ru : String := ""
  category : String := ""
  price_cny : ℚ := 0
  min_order : ℤ := 1
  sales_volume : ℤ := 0
  sales_trend : ℚ := 0
  rating : ℚ := 0
  supplier_name : String := ""
  supplier_years : ℤ := 0
  image_url : String := ""
  wb_keyword : String := ""
  wb_est_price : ℚ := 0
deriving DecidableEq, Repr

/-- `AnalyzedProduct` from `src/models.py`: a raw product plus computed
economics and scores. -/
structure AnalyzedProduct where
  raw : RawProduct
  price_rub : ℚ := 0
  delivery_cost_est : ℚ := 0
  customs_duty_est : ℚ := 0
  total_landed_cost : ℚ := 0
  wb_avg_price : ℚ := 0
  wb_competitors : ℤ := 0
  margin_pct : ℚ := 0
  margin_rub : ℚ := 0
  trend_score : ℚ := 0
  competition_score : ℚ := 0
  margin_score : ℚ := 0
  reliability_score : ℚ := 0
  total_score : ℚ := 0
  ai_insight : String := ""
deriving DecidableEq, Repr

/- ### Cost & scoring engine, from `src/analyze/scoring.py` -/

/-- Return value of `estimate_costs` (`src/analyze/scoring.py`, lines 31-36). -/
structure CostEstimate where
  price_rub : ℚ
  delivery_cost_est : ℚ
  customs_duty_est : ℚ
  total_landed_cost : ℚ
deriving DecidableEq, Repr

/-- `estimate_costs` from `src/analyze/scoring.py` (lines 17-36): landed cost
in Russia for a product, with fixed 20% delivery and 15% customs percentages,
each output rounded to 2 decimal places. -/
def estimate_costs (product : RawProduct) (cny_rate : ℚ := CNY_TO_RUB) : CostEstimate :=
  let price_rub := product.price_cny * cny_rate
  let delivery_pct : ℚ := 0.20
  let delivery_cost := price_rub * delivery_pct
  let customs_pct : ℚ := 0.15
  let customs_duty := price_rub * customs_pct
  let total := price_rub + delivery_cost + customs_duty
  { price_rub := roundTo 2 price_rub
    delivery_cost_est := roundTo 2 delivery_cost
    customs_duty_est := roundTo 2 customs_duty
    total_landed_cost := roundTo 2 total }

/-- The trend-score branch of `compute_scores`
(`src/analyze/scoring.py`, lines 48-59), before rounding. -/
def trendRaw (sales_volume : ℤ) : ℚ :=
  if sales_volume ≥ 10000 then 10
  else if sales_volume ≥ 5000 then 8
  else if sales_volume ≥ 1000 then 6
  else if sales_volume ≥ 500 then 4
  else if sales_volume ≥ 100 then 2
  else 1

/-- The competition-score branch of `compute_scores`
(`src/analyze/scoring.py`, lines 62-73), before rounding. -/
def competitionRaw (wb_competitors : ℤ) : ℚ :=
  if wb_competitors = 0 then 9
  else if wb_competitors ≤ 5 then 8
  else if wb_competitors ≤ 20 then 6
  else if wb_competitors ≤ 50 then 4
  else if wb_competitors ≤ 100 then 2
  else 1

/-- The margin computation of `compute_scores`
(`src/analyze/scoring.py`, lines 76-80): `(margin_rub, margin_pct)`,
both `0` unless `total_landed_cost > 0` and `wb_avg_price > 0`. -/
def marginParts (total_landed_cost wb_avg_price : ℚ) : ℚ × ℚ :=
  if 0 < total_landed_cost ∧ 0 < wb_avg_price then
    let margin_rub := wb_avg_price - total_landed_cost
    (margin_rub, margin_rub / wb_avg_price * 100)
  else (0, 0)

/-- The margin-score branch of `compute_scores`
(`src/analyze/scoring.py`, lines 82-93), before rounding. -/
def marginScoreRaw (margin_pct : ℚ) : ℚ :=
  if margin_pct ≥ 60 then 10
  else if margin_pct ≥ 45 then 8
  else if margin_pct ≥ 30 then 6
  else if margin_pct ≥ 15 then 4
  else if margin_pct > 0 then 2
  else 0

/-- The reliability score of `compute_scores`
(`src/analyze/scoring.py`, line 96), before rounding. -/
def reliabilityRaw (supplier_years : ℤ) (rating : ℚ) : ℚ :=
  min 10 ((supplier_years : ℚ) * 1.5 + rating * 1.5)

/-- Return value of `compute_scores` (`src/analyze/scoring.py`, lines 106-114). -/
structure Scores where
  trend_score : ℚ
  competition_score : ℚ
  margin_score : ℚ
  reliability_score : ℚ
  total_score : ℚ
  margin_pct : ℚ
  margin_rub : ℚ
deriving DecidableEq, Repr

/-- `compute_scores` from `src/analyze/scoring.py` (lines 39-114): the four
0-10 sub-scores, the weighted total, and the margin figures.  Sub-scores are
rounded to 1 decimal place, `total_score` to 2, `margin_pct` to 1,
`margin_rub` to 2. -/
def compute_scores (product : RawProduct) (total_landed_cost wb_avg_price : ℚ)
    (wb_competitors : ℤ) : Scores :=
  let trend := trendRaw product.sales_volume
  let competition := competitionRaw wb_competitors
  let parts := marginParts total_landed_cost wb_avg_price
  let margin_rub := parts.1
  let margin_pct := parts.2
  let margin := marginScoreRaw margin_pct
  let reliability := reliabilityRaw product.supplier_years product.rating
  let total := trend * TREND_WEIGHT + competition * COMPETITION_WEIGHT
    + margin * MARGIN_WEIGHT + reliability * RELIABILITY_WEIGHT
  { trend_score := roundTo 1 trend
    competition_score := roundTo 1 competition
    margin_score := roundTo 1 margin
    reliability_score := roundTo 1 reliability
    total_score := roundTo 2 total
    margin_pct := roundTo 1 margin_pct
    margin_rub := roundTo 2 margin_rub }

/-- `analyze_product` from `src/analyze/scoring.py` (lines 117-146): full
analysis of a single product, combining cost estimate and scores into an
`AnalyzedProduct`.  (The Python default `cny_rate` inside `estimate_costs`
is the configured rate; the pipeline passes live data, so the rate is a
parameter here.) -/
def analyze_product (product : RawProduct) (cny_rate : ℚ)
    (wb_avg_price : ℚ := 0) (wb_competitors : ℤ := 0) : AnalyzedProduct :=
  let costs := estimate_costs product cny_rate
  let scores := compute_scores product costs.total_landed_cost wb_avg_price wb_competitors
  { raw := product
    price_rub := costs.price_rub
    delivery_cost_est := costs.delivery_cost_est
    customs_duty_est := costs.customs_duty_est
    total_landed_cost := costs.total_landed_cost
    wb_avg_price := wb_avg_price
    wb_competitors := wb_competitors
    margin_pct := scores.margin_pct
    margin_rub := scores.margin_rub
    trend_score := scores.trend_score
    competition_score := scores.competition_score
    margin_score := scores.margin_score
    reliability_score := scores.reliability_score
    total_score := scores.total_score
    ai_insight := "" }

/- ### Wildberries market-data client, from `src/collect/wb_analytics.py` -/

/-- One listing of a WB search response, restricted to the fields the client
reads: `salePriceU` (price in kopecks, divided by 100 in the code) and `id`. -/
structure WBListing where
  salePriceU : ℤ := 0
  id : ℤ := 0
deriving DecidableEq, Repr

/-- The market snapshot returned by `get_wb_market_data`
(`src/collect/wb_analytics.py`, lines 182-189). -/
structure WBResult where
  avg_price : ℚ
  competitors : ℕ
  min_price : ℚ
  max_price : ℚ
  image_url : String
  product_url : String
deriving DecidableEq, Repr

/-- `_EMPTY` from `src/collect/wb_analytics.py` (line 16): the all-zero
snapshot returned on every failure path. -/
def wbEmpty : WBResult :=
  { avg_price := 0, competitors := 0, min_price := 0, max_price := 0
    image_url := "", product_url := "" }

/-- `MAX_RETRIES = 3` from `src/collect/wb_analytics.py`. -/
def MAX_RETRIES : ℕ := 3

/-- `BASE_DELAY = 8.0` seconds, from `src/collect/wb_analytics.py`. -/
def BASE_DELAY : ℚ := 8.0

/-- `_wb_image_url` from `src/collect/wb_analytics.py` (lines 41-81):
construct the WB CDN image URL from a product id (Python `//` is floor
division; `ℤ` division here agrees with it on the non-negative ids WB
returns). -/
def wbImageUrl (product_id : ℤ) : String :=
  let vol := product_id / 100000
  let part := product_id / 1000
  let basket :=
    if vol ≤ 143 then "01"
    else if vol ≤ 287 then "02"
    else if vol ≤ 431 then "03"
    else if vol ≤ 719 then "04"
    else if vol ≤ 1007 then "05"
    else if vol ≤ 1061 then "06"
    else if vol ≤ 1115 then "07"
    else if vol ≤ 1169 then "08"
    else if vol ≤ 1313 then "09"
    else if vol ≤ 1601 then "10"
    else if vol ≤ 1655 then "11"
    else if vol ≤ 1919 then "12"
    else if vol ≤ 2045 then "13"
    else if vol ≤ 2189 then "14"
    else if vol ≤ 2405 then "15"
    else if vol ≤ 2621 then "16"
    else if vol ≤ 2837 then "17"
    else "18"
  "https://basket-" ++ basket ++ ".wbbasket.ru/vol" ++ toString vol
    ++ "/part" ++ toString part ++ "/" ++ toString product_id ++ "/images/big/1.webp"

/-- The response-parsing tail of `get_wb_market_data`
(`src/collect/wb_analytics.py`, lines 161-195): from the listings of a
successful response, build the snapshot.  Prices come from the first 50
listings, dropping non-positive ones; `competitors` is the length of the
whole listing array; empty input or no positive price yields `wbEmpty`. -/
def wbParse (products : List WBListing) : WBResult :=
  match products with
  | [] => wbEmpty
  | top :: _ =>
    let prices := ((products.take 50).map
      (fun p => (p.salePriceU : ℚ) / 100)).filter (fun price => 0 < price)
    match prices with
    | [] => wbEmpty
    | p :: ps =>
      let top_id := top.id
      { avg_price := roundTo 2 ((p :: ps).sum / (p :: ps).length)
        competitors := products.length
        min_price := ps.foldl min p
        max_price := ps.foldl max p
        image_url := if top_id ≠ 0 then wbImageUrl top_id else ""
        product_url :=
          if top_id ≠ 0 then
            "https://www.wildberries.ru/catalog/" ++ toString top_id ++ "/detail.aspx"
          else "" }

/-- Outcome of one outbound HTTP request, as distinguished by
`get_wb_market_data`: an HTTP 429, another HTTP error status
(`resp.raise_for_status()`), a network/other failure (the generic `except`),
or a successful JSON response carrying its listings. -/
inductive WBResponse where
  | rateLimited : WBResponse
  | httpError : WBResponse
  | netError : WBResponse
  | ok : List WBListing → WBResponse
deriving DecidableEq, Repr

/-- The in-memory term cache `_wb_cache` of `src/collect/wb_analytics.py`
(line 26), modelled as an association list from search term to snapshot. -/
abbrev WBCache := List (String × WBResult)

/-- Python's `str.strip()`: drop leading and trailing whitespace. -/
def pyStrip (s : String) : String :=
  String.mk (((s.data.dropWhile Char.isWhitespace).reverse.dropWhile
    Char.isWhitespace).reverse)

/-- Python's no-argument `str.split()`: the maximal runs of non-whitespace
characters, in order. -/
def pySplitWords (s : String) : List String :=
  ((s.data.splitOnP Char.isWhitespace).filter (fun w => w ≠ [])).map String.mk

/-- Python's `" ".join(...)`. -/
def joinSpace (ws : List String) : String :=
  String.intercalate " " ws

/-- Python's `str.startswith(pre)`. -/
def pyStartsWith (s pre : String) : Bool :=
  pre.data.isPrefixOf s.data

/-- The resolved search term of `get_wb_market_data`
(`src/collect/wb_analytics.py`, line 102): the stripped keyword when one is
given (Python truthiness: non-empty string), else the first two
whitespace-separated words of the query joined by a space. -/
def resolveSearchTerm (query keyword : String) : String :=
  if keyword ≠ "" then pyStrip keyword
  else joinSpace ((pySplitWords query).take 2)

/-- The retry loop of `get_wb_market_data` (`src/collect/wb_analytics.py`,
lines 128-196), driven by the sequence of HTTP outcomes `responses`
(request number `attempt` receives `responses attempt`).  Returns the
snapshot, the number of HTTP requests issued, and the list of backoff
delays slept (`BASE_DELAY * 2 ** attempt` after each 429; the fixed
`MIN_REQUEST_GAP` pacing sleeps are not listed).  `remaining` counts the
loop iterations left, starting at `MAX_RETRIES`. -/
def wbLoop (responses : ℕ → WBResponse) : ℕ → ℕ → WBResult × ℕ × List ℚ
  | _, 0 => (wbEmpty, 0, [])
  | attempt, remaining + 1 =>
    match responses attempt with
    | .rateLimited =>
      let rest := wbLoop responses (attempt + 1) remaining
      (rest.1, rest.2.1 + 1, BASE_DELAY * 2 ^ attempt :: rest.2.2)
    | .httpError => (wbEmpty, 1, [])
    | .netError => (wbEmpty, 1, [])
    | .ok products => (wbParse products, 1, [])

/-- Result of one call to `get_wb_market_data`: the returned snapshot, the
cache afterwards, the number of HTTP requests issued, and the backoff
delays slept. -/
structure WBCallResult where
  result : WBResult
  cache : WBCache
  requests : ℕ
  sleeps : List ℚ
deriving DecidableEq, Repr

/-- `get_wb_market_data` from `src/collect/wb_analytics.py` (lines 91-200):
resolve the search term, return `_EMPTY` (uncached) when it is empty,
serve from the cache on a hit, and otherwise run the retry loop and cache
whatever it returns — every terminal path of the Python loop stores the
value it returns under the search term before returning it. -/
def get_wb_market_data (cache : WBCache) (query : String) (keyword : String := "")
    (responses : ℕ → WBResponse) : WBCallResult :=
  let search_term := resolveSearchTerm query keyword
  if search_term = "" then
    { result := wbEmpty, cache := cache, requests := 0, sleeps := [] }
  else
    match cache.lookup search_term with
    | some cached => { result := cached, cache := cache, requests := 0, sleeps := [] }
    | none =>
      let out := wbLoop responses 0 MAX_RETRIES
      { result := out.1
        cache := (search_term, out.1) :: cache
        requests := out.2.1
        sleeps := out.2.2 }

/- ### Publish ledger, from `src/db.py` -/

/-- One row of the `published_posts` table (`src/db.py`), restricted to the
columns the selection stage queries.  `published_at` is modelled as an
integer timestamp (days). -/
structure PublishedPost where
  source_url : String
  platform : String
  image_url : String := ""
  published_at : ℤ := 0
deriving DecidableEq, Repr

/-- `is_already_published` from `src/db.py` (lines 292-301):
`SELECT 1 FROM published_posts WHERE source_url = ? AND platform = ?`. -/
def is_already_published (ledger : List PublishedPost) (source_url : String)
    (platform : String := "telegram") : Bool :=
  ledger.any fun e => e.source_url == source_url && e.platform == platform

/-- `is_image_already_published` from `src/db.py` (lines 274-289):
false for an empty URL, otherwise
`SELECT 1 FROM published_posts WHERE image_url = ? AND image_url != ''`. -/
def is_image_already_published (ledger : List PublishedPost)
    (image_url : String) : Bool :=
  if image_url = "" then false
  else ledger.any fun e => e.image_url == image_url && e.image_url != ""

/-- Modelled from the spec: `is_product_recently_published` is imported by
`scripts/run_pipeline.py` from `src.db` but is not defined anywhere under
`src/`.  Per spec section 4.4, it reports whether the source URL was
published to *any* platform (no platform filter) within the last `days`
days. -/
def is_product_recently_published (ledger : List PublishedPost) (now : ℤ)
    (source_url : String) (days : ℤ) : Bool :=
  ledger.any fun e =>
    e.source_url == source_url && decide (now - e.published_at ≤ days)

/- ### Selection stage, from `scripts/run_pipeline.py` -/

/-- The descending-score ordering used by
`analyzed.sort(key=lambda p: p.total_score, reverse=True)`
(`scripts/run_pipeline.py`, line 209): `a` may come before `b` exactly when
`a.total_score ≥ b.total_score`. -/
def scoreGE (a b : AnalyzedProduct) : Prop :=
  b.total_score ≤ a.total_score

instance : DecidableRel scoreGE := fun a b =>
  inferInstanceAs (Decidable (b.total_score ≤ a.total_score))

/-- Python's stable `list.sort(key=..., reverse=True)` modelled as stable
insertion sort by descending `total_score`. -/
def sortByScoreDesc (l : List AnalyzedProduct) : List AnalyzedProduct :=
  l.insertionSort scoreGE

/-- The analysis stage of `run` (`scripts/run_pipeline.py`, lines 125-202):
skip every raw product already published to the target platform
(`is_already_published`, default platform `"telegram"`), and analyze the
rest in collection order.  The per-product market data (WB price and
competitor count, after the fallback chain) is supplied by `wb`, and the
exchange rate by `cny_rate` — both are I/O. -/
def analyzeStage (ledger : List PublishedPost) (raws : List RawProduct)
    (wb : RawProduct → ℚ × ℤ) (cny_rate : ℚ) : List AnalyzedProduct :=
  (raws.filter fun r => !is_already_published ledger r.source_url "telegram").map
    fun r => analyze_product r cny_rate (wb r).1 (wb r).2

/-- The ranking step of `run` (`scripts/run_pipeline.py`, lines 209-210):
stable sort by `total_score` descending, then keep the first `top_n`. -/
def selectTop (analyzed : List AnalyzedProduct) (top_n : ℕ) : List AnalyzedProduct :=
  (sortByScoreDesc analyzed).take top_n

/-- The recency filter of the publish loop (`scripts/run_pipeline.py`,
lines 226-230): a selected candidate is skipped (not published) when its
source URL was recently published; `days=14` is the value passed by the
pipeline. -/
def publishStageKept (ledger : List PublishedPost) (now : ℤ)
    (top : List AnalyzedProduct) : List AnalyzedProduct :=
  top.filter fun p => !is_product_recently_published ledger now p.raw.source_url 14

/-- The image-deduplication step of the publish loop
(`scripts/run_pipeline.py`, lines 236-239): when the candidate has an image
URL that was already used by a published post, clear it; the candidate
itself is kept. -/
def dedupImage (ledger : List PublishedPost) (p : AnalyzedProduct) : AnalyzedProduct :=
  if p.raw.image_url ≠ "" ∧ is_image_already_published ledger p.raw.image_url then
    { p with raw := { p.raw with image_url := "" } }
  else p

/- ### 1688.com collector, from `src/collect/alibaba_1688.py` -/

/-- One Apify result item, restricted to what `Collector1688._map_item`
reads.  The numeric fields hold the already-parsed values of the
corresponding JSON fields: `priceIntDec` is
`float(str(price_integer) + str(price_decimal))` (`0` when `price_integer`
is absent or unparsable, matching the `except` branch), `priceParsed` is
`_parse_price(item["price"])`, `qtyPriceParsed` is
`_parse_price(quantity_prices[0]["price"])` (`0` when the list is empty),
`salesParsed` is `_parse_sales(item["order_count"])`, `ratingParsed` the
repurchase-rate-derived rating (`0` on absence or parse failure), and
`minOrderParsed` the quantity regex result (`1` when absent). -/
structure ApifyItem where
  title : String := ""
  detail_url : String := ""
  priceIntDec : ℚ := 0
  priceParsed : ℚ := 0
  qtyPriceParsed : ℚ := 0
  salesParsed : ℤ := 0
  supplier_name : String := ""
  ratingParsed : ℚ := 0
  image_url : String := ""
  minOrderParsed : ℤ := 1
deriving DecidableEq, Repr

/-- The price cascade of `Collector1688._map_item`
(`src/collect/alibaba_1688.py`, lines 246-259): integer+decimal price
first, then the `price` field, then the first quantity price. -/
def itemPrice (it : ApifyItem) : ℚ :=
  let price₁ := it.priceIntDec
  let price₂ := if price₁ = 0 then it.priceParsed else price₁
  if price₂ = 0 then it.qtyPriceParsed else price₂

/-- `Collector1688._map_item` from `src/collect/alibaba_1688.py`
(lines 233-320): map one Apify item to a `RawProduct`, or `none` when the
title is empty, the URL is empty, or the resolved price is non-positive.
Title translation (a Google Translate network call composed with
`_trim_title`) and WB-keyword extraction are supplied as the functions
`translate` and `extractKeyword`. -/
def mapItem (translate extractKeyword : String → String) (category : String)
    (it : ApifyItem) : Option RawProduct :=
  if it.title = "" then none
  else
    let source_url :=
      if it.detail_url ≠ "" ∧ ¬pyStartsWith it.detail_url "http"
      then "https:" ++ it.detail_url else it.detail_url
    if source_url = "" then none
    else
      let price_cny := itemPrice it
      if price_cny ≤ 0 then none
      else
        let image_url :=
          if it.image_url ≠ "" ∧ ¬pyStartsWith it.image_url "http"
          then "https:" ++ it.image_url else it.image_url
        let title_ru := translate it.title
        some { source := "1688"
               source_url := source_url
               title_cn := it.title
               title_ru := title_ru
               category := category
               price_cny := price_cny
               min_order := it.minOrderParsed
               sales_volume := it.salesParsed
               sales_trend := 0
               rating := it.ratingParsed
               supplier_name := it.supplier_name
               supplier_years := 0
               image_url := image_url
               wb_keyword := extractKeyword title_ru
               wb_est_price := 0 }

/-- `Collector1688.collect` from `src/collect/alibaba_1688.py`
(lines 171-203): empty without an Apify token, empty when the actor call
fails (`items = none`) or returns nothing, otherwise the first `limit`
items mapped through `_map_item`, dropping the items it rejects (the
per-item `try/except` also only ever skips an item). -/
def collect1688 (hasApifyToken : Bool) (items : Option (List ApifyItem))
    (translate extractKeyword : String → String) (category : String)
    (limit : ℕ := 20) : List RawProduct :=
  if !hasApifyToken then []
  else
    match items with
    | none => []
    | some its =>
      if its = [] then []
      else (its.take limit).filterMap (mapItem translate extractKeyword category)

/- ### Reference definitions from spec section 4.3 (for the refinement claim)

These follow the spec's wording — step functions given by threshold tables —
and are compared against `compute_scores`, which is translated from
`src/analyze/scoring.py`. -/

/-- A descending step function as the spec describes them: the score of the
first threshold `t` with `x ≥ t`, else the default. -/
def stepGE (cases : List (ℤ × ℚ)) (deflt : ℚ) (x : ℤ) : ℚ :=
  match cases with
  | [] => deflt
  | (t, score) :: rest => if x ≥ t then score else stepGE rest deflt x

/-- An ascending ("inverted") step function as the spec describes the
competition score: the score of the first threshold `t` with `x ≤ t`,
else the default. -/
def stepLE (cases : List (ℤ × ℚ)) (deflt : ℚ) (x : ℤ) : ℚ :=
  match cases with
  | [] => deflt
  | (t, score) :: rest => if x ≤ t then score else stepLE rest deflt x

/-- `stepGE` over rational inputs, for the margin-percentage step function. -/
def stepGEQ (cases : List (ℚ × ℚ)) (deflt : ℚ) (x : ℚ) : ℚ :=
  match cases with
  | [] => deflt
  | (t, score) :: rest => if x ≥ t then score else stepGEQ rest deflt x

/-- The scores named by spec section 4.3's `computeScores` contract (the
claim compares the sub-scores and margin figures). -/
structure ScoresSpec where
  trendScore : ℚ
  competitionScore : ℚ
  marginScore : ℚ
  reliabilityScore : ℚ
  marginPct : ℚ
  marginAbs : ℚ
deriving DecidableEq, Repr

/-- Reference definition of spec section 4.3: trend, competition and margin
scores as threshold-table step functions, margin figures guarded by
`totalLandedCost > 0` and `referencePrice > 0`, reliability as
`min(10, supplierYears × 1.5 + supplierRating × 1.5)`; sub-scores and
`marginPct` rounded to 1 decimal place, `marginAbs` to 2. -/
def computeScoresSpec (raw : RawProduct) (totalLandedCost referencePrice : ℚ)
    (competitorCount : ℤ) : ScoresSpec :=
  let trendScore :=
    stepGE [(10000, 10), (5000, 8), (1000, 6), (500, 4), (100, 2)] 1 raw.sales_volume
  let competitionScore :=
    if competitorCount = 0 then 9
    else stepLE [(5, 8), (20, 6), (50, 4), (100, 2)] 1 competitorCount
  let pair :=
    if 0 < totalLandedCost ∧ 0 < referencePrice then
      (referencePrice - totalLandedCost,
       (referencePrice - totalLandedCost) / referencePrice * 100)
    else (0, 0)
  let marginScore :=
    stepGEQ [(60, 10), (45, 8), (30, 6), (15, 4)] (if 0 < pair.2 then 2 else 0) pair.2
  let reliabilityScore :=
    min 10 ((raw.supplier_years : ℚ) * 1.5 + raw.rating * 1.5)
  { trendScore := roundTo 1 trendScore
    competitionScore := roundTo 1 competitionScore
    marginScore := roundTo 1 marginScore
    reliabilityScore := roundTo 1 reliabilityScore
    marginPct := roundTo 1 pair.2
    marginAbs := roundTo 2 pair.1 }

/-- The fixed-weight combination of the four (returned, i.e. rounded)
sub-scores, rounded to 2 decimal places — the function claim C3 asserts
`total_score` to be. -/
def totalFromSubs (trend competition margin reliability : ℚ) : ℚ :=
  roundTo 2 (trend * TREND_WEIGHT + competition * COMPETITION_WEIGHT
    + margin * MARGIN_WEIGHT + reliability * RELIABILITY_WEIGHT)

/- ### Ordering instances for the ranking relation -/

instance : IsTotal AnalyzedProduct scoreGE :=
  ⟨fun a b => le_total b.total_score a.total_score⟩

instance : IsTrans AnalyzedProduct scoreGE :=
  ⟨fun _ _ _ h₁ h₂ => le_trans h₂ h₁⟩

/- ### Concrete fixtures for witnesses and counterexamples -/

/-- The first demo product of `src/collect/demo_source.py` (Bluetooth
earphones), also the end-to-end fixture of spec section 8. -/
def demoProduct : RawProduct :=
  { source := "demo"
    source_url := "https://detail.1688.com/offer/demo-bt-earphones-001.html"
    title_cn := ""
    title_ru := ""
    category := "electronics"
    price_cny := 28.5
    min_order := 50
    sales_volume := 15200
    sales_trend := 45
    rating := 4.7
    supplier_name := "Shenzhen AudioTech Co."
    supplier_years := 6
    image_url := ""
    wb_keyword := ""
    wb_est_price := 2500 }

/-- Candidate `A(score high, url u1)` of the claim C7 scenario. -/
def prodA : RawProduct :=
  { source := "demo", source_url := "u1", category := "electronics"
    price_cny := 10, sales_volume := 20000, rating := 5, supplier_years := 9 }

/-- Candidate `B(score lower, url u2)` of the claim C7 scenario. -/
def prodB : RawProduct :=
  { source := "demo", source_url := "u2", category := "electronics"
    price_cny := 10, sales_volume := 50, rating := 1, supplier_years := 0 }

/-- A ledger in which `u1` is already published to the target platform. -/
def exLedger : List PublishedPost :=
  [{ source_url := "u1", platform := "telegram", image_url := "img1", published_at := 90 }]

/-- Market data for the C7 scenario. -/
def exWB : RawProduct → ℚ × ℤ :=
  fun r => if r.source_url == "u1" then (2500, 12) else (100, 3)

/-- An HTTP trace whose first response is a 429 and whose later responses
succeed with one positively-priced listing. -/
def cexResponses : ℕ → WBResponse :=
  fun i => if i = 0 then .rateLimited
    else .ok [{ salePriceU := 10000, id := 7 }]

/-- An HTTP trace of nothing but 429 responses. -/
def allRateLimited : ℕ → WBResponse := fun _ => .rateLimited

/-- An Apify item with a positive price and a fixed URL, used twice to
exhibit the missing `source_url` deduplication. -/
def dupItem : ApifyItem :=
  { title := "蓝牙耳机", detail_url := "https://detail.1688.com/offer/1.html"
    priceParsed := 5 }

/-- The `RawProduct` that `mapItem` produces from `dupItem` with the
identity translation and an empty keyword extractor. -/
def dupProduct : RawProduct :=
  { source := "1688"
    source_url := "https://detail.1688.com/offer/1.html"
    title_cn := "蓝牙耳机"
    title_ru := "蓝牙耳机"
    category := "electronics"
    price_cny := 5
    min_order := 1
    sales_volume := 0
    sales_trend := 0
    rating := 0
    supplier_name := ""
    supplier_years := 0
    image_url := ""
    wb_keyword := ""
    wb_est_price := 0 }

/-- A ledger recording that `u2` was published to VK on day 95. -/
def recentLedger : List PublishedPost :=
  [{ source_url := "u2", platform := "vk", image_url := "", published_at := 95 }]

/-- A candidate whose image URL `img1` matches a previously published
image (see `exLedger`). -/
def imgProduct : AnalyzedProduct :=
  { raw := { source_url := "u9", image_url := "img1" } }

/-!
## Theorems

The `attribute [local semireducible]` lines below only undo Batteries'
`@[irreducible]` markers on the rational-number operations, so that
`decide` can evaluate concrete instances; they do not change any
definition.
-/

section MainTheorems

attribute [local semireducible] Rat.mul Rat.add Rat.sub Rat.inv Rat.ofScientific

/-- C1: for every `RawProduct` and all inputs, `compute_scores` agrees with
the reference definition of spec section 4.3 on the four sub-scores and the
margin figures: the trend / competition / margin step functions with the
spec's thresholds, the guarded margin computation, the capped linear
reliability score, and the stated roundings. -/
theorem compute_scores_matches_spec_section_4_3
    (product : RawProduct) (totalLandedCost referencePrice : ℚ)
    (competitorCount : ℤ) :
    let s := compute_scores product totalLandedCost referencePrice competitorCount
    let t := computeScoresSpec product totalLandedCost referencePrice competitorCount
    s.trend_score = t.trendScore ∧ s.competition_score = t.competitionScore ∧
    s.margin_score = t.marginScore ∧ s.reliability_score = t.reliabilityScore ∧
    s.margin_pct = t.marginPct ∧ s.margin_rub = t.marginAbs :=
  ⟨rfl, rfl, rfl, rfl, rfl, rfl⟩

/-- C2: for a positive unit price and exchange rate, `estimate_costs`
returns the converted price, 20% delivery, 15% customs, each rounded to 2
decimals, and the total equals `p*r*1.35` rounded to 2 decimals (computed
from the unrounded components). -/
theorem estimate_costs_fixed_percentages
    (product : RawProduct) (rate : ℚ)
    (hp : 0 < product.price_cny) (hr : 0 < rate) :
    let c := estimate_costs product rate
    c.price_rub = roundTo 2 (product.price_cny * rate) ∧
    c.delivery_cost_est = roundTo 2 (product.price_cny * rate * 0.20) ∧
    c.customs_duty_est = roundTo 2 (product.price_cny * rate * 0.15) ∧
    c.total_landed_cost = roundTo 2 (product.price_cny * rate * 1.35) := by
  refine ⟨rfl, rfl, rfl, ?_⟩
  show roundTo 2 (product.price_cny * rate + product.price_cny * rate * 0.20
    + product.price_cny * rate * 0.15) = roundTo 2 (product.price_cny * rate * 1.35)
  congr 1
  rw [show (0.20 : ℚ) = 1/5 by norm_num, show (0.15 : ℚ) = 3/20 by norm_num,
    show (1.35 : ℚ) = 27/20 by norm_num]
  ring

/-- Witness for C2 at the demo Bluetooth-earphones product and the fallback
exchange rate 12.5. -/
theorem estimate_costs_fixed_percentages_witness :
    (estimate_costs demoProduct 12.5).total_landed_cost
      = roundTo 2 (demoProduct.price_cny * 12.5 * 1.35) :=
  (estimate_costs_fixed_percentages demoProduct 12.5 (by decide) (by decide)).2.2.2

/-- `round` is monotone on `ℚ`. -/
theorem round_rat_mono {x y : ℚ} (h : x ≤ y) : round x ≤ round y := by
  rw [round_eq, round_eq]
  exact Int.floor_mono (by linarith)

/-- `roundTo` is monotone. -/
theorem roundTo_mono (d : ℕ) {x y : ℚ} (h : x ≤ y) : roundTo d x ≤ roundTo d y := by
  unfold roundTo
  have hm : x * 10 ^ d ≤ y * 10 ^ d :=
    mul_le_mul_of_nonneg_right h (by positivity)
  have hr : ((round (x * 10 ^ d) : ℤ) : ℚ) ≤ ((round (y * 10 ^ d) : ℤ) : ℚ) := by
    exact_mod_cast round_rat_mono hm
  gcongr

/-- The unrounded trend score is an integer. -/
theorem trendRaw_int (sv : ℤ) : ∃ n : ℤ, trendRaw sv = (n : ℚ) := by
  unfold trendRaw
  split_ifs
  exacts [⟨10, by norm_num⟩, ⟨8, by norm_num⟩, ⟨6, by norm_num⟩,
    ⟨4, by norm_num⟩, ⟨2, by norm_num⟩, ⟨1, by norm_num⟩]

/-- The unrounded competition score is an integer. -/
theorem competitionRaw_int (wc : ℤ) : ∃ n : ℤ, competitionRaw wc = (n : ℚ) := by
  unfold competitionRaw
  split_ifs
  exacts [⟨9, by norm_num⟩, ⟨8, by norm_num⟩, ⟨6, by norm_num⟩,
    ⟨4, by norm_num⟩, ⟨2, by norm_num⟩, ⟨1, by norm_num⟩]

/-- The unrounded margin score is an integer. -/
theorem marginScoreRaw_int (mp : ℚ) : ∃ n : ℤ, marginScoreRaw mp = (n : ℚ) := by
  unfold marginScoreRaw
  split_ifs
  exacts [⟨10, by norm_num⟩, ⟨8, by norm_num⟩, ⟨6, by norm_num⟩,
    ⟨4, by norm_num⟩, ⟨2, by norm_num⟩, ⟨0, by norm_num⟩]

/-- Rounding an integer to 1 decimal place changes nothing. -/
theorem roundTo_one_intCast (n : ℤ) : roundTo 1 ((n : ℚ)) = (n : ℚ) := by
  unfold roundTo
  rw [pow_one, show (n : ℚ) * 10 = ((n * 10 : ℤ) : ℚ) by push_cast; ring,
    round_intCast]
  push_cast
  field_simp

/-- Shift rule: rounding `k/100 + r/10` to 2 decimals equals `k/100` plus
the 1-decimal rounding of `r` divided by 10. -/
theorem roundTo_two_shift (k : ℤ) (r : ℚ) :
    roundTo 2 ((k : ℚ) / 100 + r * RELIABILITY_WEIGHT)
      = (k : ℚ) / 100 + roundTo 1 r * RELIABILITY_WEIGHT := by
  have hW : RELIABILITY_WEIGHT = 1 / 10 := by norm_num [RELIABILITY_WEIGHT]
  unfold roundTo
  rw [hW]
  have h1 : ((k : ℚ) / 100 + r * (1 / 10)) * 10 ^ 2 = (r * 10 ^ 1) + (k : ℚ) := by
    ring
  rw [h1, show (r * 10 ^ 1) + (k : ℚ) = r * 10 ^ 1 + (k : ℚ) from rfl,
    round_add_int]
  push_cast
  ring

/-- C3: `total_score` is the fixed-weight linear combination (weights
0.35 / 0.25 / 0.30 / 0.10, summing to 1) of the four returned sub-scores,
rounded to 2 decimal places, and that combination is monotone
non-decreasing in each sub-score. -/
theorem total_score_weighted_combination :
    (TREND_WEIGHT + COMPETITION_WEIGHT + MARGIN_WEIGHT + RELIABILITY_WEIGHT = 1) ∧
    (∀ (product : RawProduct) (tlc wap : ℚ) (wc : ℤ),
      (compute_scores product tlc wap wc).total_score =
        totalFromSubs (compute_scores product tlc wap wc).trend_score
          (compute_scores product tlc wap wc).competition_score
          (compute_scores product tlc wap wc).margin_score
          (compute_scores product tlc wap wc).reliability_score) ∧
    (∀ t t' c m r, t ≤ t' → totalFromSubs t c m r ≤ totalFromSubs t' c m r) ∧
    (∀ t c c' m r, c ≤ c' → totalFromSubs t c m r ≤ totalFromSubs t c' m r) ∧
    (∀ t c m m' r, m ≤ m' → totalFromSubs t c m r ≤ totalFromSubs t c m' r) ∧
    (∀ t c m r r', r ≤ r' → totalFromSubs t c m r ≤ totalFromSubs t c m r') := by
  refine ⟨by norm_num [TREND_WEIGHT, COMPETITION_WEIGHT, MARGIN_WEIGHT,
    RELIABILITY_WEIGHT], ?_, ?_, ?_, ?_, ?_⟩
  · intro product tlc wap wc
    obtain ⟨nt, ht⟩ := trendRaw_int product.sales_volume
    obtain ⟨nc, hc⟩ := competitionRaw_int wc
    obtain ⟨nm, hm⟩ := marginScoreRaw_int (marginParts tlc wap).2
    simp only [compute_scores, totalFromSubs]
    rw [ht, hc, hm, roundTo_one_intCast, roundTo_one_intCast, roundTo_one_intCast]
    set r := reliabilityRaw product.supplier_years product.rating with hrdef
    have hb : (nt : ℚ) * TREND_WEIGHT + (nc : ℚ) * COMPETITION_WEIGHT
        + (nm : ℚ) * MARGIN_WEIGHT = ((35 * nt + 25 * nc + 30 * nm : ℤ) : ℚ) / 100 := by
      push_cast
      norm_num [TREND_WEIGHT, COMPETITION_WEIGHT, MARGIN_WEIGHT]
      ring
    have e1 : (nt : ℚ) * TREND_WEIGHT + (nc : ℚ) * COMPETITION_WEIGHT
        + (nm : ℚ) * MARGIN_WEIGHT + r * RELIABILITY_WEIGHT
        = ((35 * nt + 25 * nc + 30 * nm : ℤ) : ℚ) / 100 + r * RELIABILITY_WEIGHT := by
      rw [hb]
    have e2 : (nt : ℚ) * TREND_WEIGHT + (nc : ℚ) * COMPETITION_WEIGHT
        + (nm : ℚ) * MARGIN_WEIGHT + roundTo 1 r * RELIABILITY_WEIGHT
        = ((35 * nt + 25 * nc + 30 * nm : ℤ) : ℚ) / 100
          + roundTo 1 r * RELIABILITY_WEIGHT := by
      rw [hb]
    rw [e1, e2, roundTo_two_shift]
    have hint : ((35 * nt + 25 * nc + 30 * nm : ℤ) : ℚ) / 100
        + roundTo 1 r * RELIABILITY_WEIGHT
        = ((35 * nt + 25 * nc + 30 * nm + round (r * 10) : ℤ) : ℚ) / 100 := by
      unfold roundTo
      norm_num [RELIABILITY_WEIGHT]
      push_cast
      ring
    rw [hint]
    unfold roundTo
    rw [show ((35 * nt + 25 * nc + 30 * nm + round (r * 10) : ℤ) : ℚ) / 100 * 10 ^ 2
      = ((35 * nt + 25 * nc + 30 * nm + round (r * 10) : ℤ) : ℚ) by push_cast; ring,
      round_intCast]
    norm_num
  · intro t t' c m r h
    apply roundTo_mono
    have := mul_le_mul_of_nonneg_right h
      (show (0 : ℚ) ≤ TREND_WEIGHT by norm_num [TREND_WEIGHT])
    linarith
  · intro t c c' m r h
    apply roundTo_mono
    have := mul_le_mul_of_nonneg_right h
      (show (0 : ℚ) ≤ COMPETITION_WEIGHT by norm_num [COMPETITION_WEIGHT])
    linarith
  · intro t c m m' r h
    apply roundTo_mono
    have := mul_le_mul_of_nonneg_right h
      (show (0 : ℚ) ≤ MARGIN_WEIGHT by norm_num [MARGIN_WEIGHT])
    linarith
  · intro t c m r r' h
    apply roundTo_mono
    have := mul_le_mul_of_nonneg_right h
      (show (0 : ℚ) ≤ RELIABILITY_WEIGHT by norm_num [RELIABILITY_WEIGHT])
    linarith

/-- Witness for C3: the linear-combination identity at a concrete call and
the trend monotonicity at concrete sub-scores. -/
theorem total_score_weighted_combination_witness :
    (compute_scores demoProduct 480.94 2500 12).total_score =
      totalFromSubs (compute_scores demoProduct 480.94 2500 12).trend_score
        (compute_scores demoProduct 480.94 2500 12).competition_score
        (compute_scores demoProduct 480.94 2500 12).margin_score
        (compute_scores demoProduct 480.94 2500 12).reliability_score ∧
    totalFromSubs 1 9 0 7 ≤ totalFromSubs 2 9 0 7 :=
  ⟨total_score_weighted_combination.2.1 demoProduct 480.94 2500 12,
   total_score_weighted_combination.2.2.1 1 2 9 0 7 (by norm_num)⟩

/-- Counterexample for C4 as stated: on a successful response with 51
listings, all positively priced, the returned competitor count is 51 — it
is `len(products)`, not capped at the first 50 listings. -/
theorem wb_competitors_counts_all_listings_cex :
    ¬ ((wbParse (List.replicate 51 { salePriceU := 10000, id := 7 })).competitors ≤ 50) := by
  decide

/-- C4 amended: `avg_price` is the 2-decimal rounded mean of the positive
sale prices among the first 50 listings, but `competitors` is the length of
the whole listing array (and can therefore exceed 50). -/
theorem wb_parse_avg_first50_competitors_all (products : List WBListing)
    (h : (((products.take 50).map fun p => (p.salePriceU : ℚ) / 100).filter
      (fun price => 0 < price)) ≠ []) :
    (wbParse products).avg_price = roundTo 2
      ((((products.take 50).map fun p => (p.salePriceU : ℚ) / 100).filter
          (fun price => 0 < price)).sum /
        ((((products.take 50).map fun p => (p.salePriceU : ℚ) / 100).filter
          (fun price => 0 < price)).length : ℚ)) ∧
    (wbParse products).competitors = products.length := by
  match products with
  | [] => simp at h
  | top :: rest =>
    unfold wbParse
    cases hp : (((top :: rest).take 50).map fun p => (p.salePriceU : ℚ) / 100).filter
        (fun price => 0 < price) with
    | nil => exact absurd hp h
    | cons p ps =>
      exact ⟨rfl, rfl⟩

/-- Witness for C4's amended statement: a 2-listing response with one
negative price. -/
theorem wb_parse_avg_first50_competitors_all_witness :
    (wbParse [{ salePriceU := 10000, id := 7 }, { salePriceU := -5, id := 1 }]).competitors = 2 := by
  have h := (wb_parse_avg_first50_competitors_all
    [{ salePriceU := 10000, id := 7 }, { salePriceU := -5, id := 1 }] (by decide)).2
  simpa using h

/-- Counterexample for C5 as stated: when the first response is a 429 and
the retry succeeds, the first call already issues 2 HTTP requests, so the
two calls together do not make "exactly one outbound HTTP request". -/
theorem wb_two_calls_two_requests_cex :
    (get_wb_market_data [] "wireless charger" "q" cexResponses).requests +
      (get_wb_market_data
        (get_wb_market_data [] "wireless charger" "q" cexResponses).cache
        "wireless charger" "q" cexResponses).requests ≠ 1 := by
  decide

/-- C5 amended: for a non-empty resolved search term not yet cached, the
first completed call stores its own return value under the term — on every
outcome, including empty and failed results — and a second call with the
same `(query, keyword)` pair is answered from the cache with zero HTTP
requests; the first call issues exactly one request unless its first
response is a 429. -/
theorem wb_cache_second_call_no_requests
    (cache : WBCache) (query keyword : String) (r₁ r₂ : ℕ → WBResponse)
    (hterm : resolveSearchTerm query keyword ≠ "")
    (hmiss : cache.lookup (resolveSearchTerm query keyword) = none) :
    let first := get_wb_market_data cache query keyword r₁
    let second := get_wb_market_data first.cache query keyword r₂
    first.cache.lookup (resolveSearchTerm query keyword) = some first.result ∧
    second.requests = 0 ∧ second.result = first.result ∧
    second.cache = first.cache ∧ 1 ≤ first.requests ∧
    (r₁ 0 ≠ .rateLimited → first.requests = 1) := by
  simp only [get_wb_market_data, hmiss, if_neg hterm]
  refine ⟨?_, ?_, ?_, ?_, ?_, ?_⟩
  · simp [List.lookup]
  · simp [List.lookup]
  · simp [List.lookup]
  · simp [List.lookup]
  · rcases h0 : r₁ 0 with _ | _ | _ | prods <;>
      simp [wbLoop, MAX_RETRIES, h0]
  · intro hne
    rcases h0 : r₁ 0 with _ | _ | _ | prods
    · exact absurd h0 hne
    all_goals simp [wbLoop, MAX_RETRIES, h0]

/-- Witness for C5's amended statement: a failing trace (all 429) still
caches the term, and the second call issues no request. -/
theorem wb_cache_second_call_no_requests_witness :
    (get_wb_market_data
      (get_wb_market_data [] "query text" "earbuds" allRateLimited).cache
      "query text" "earbuds" allRateLimited).requests = 0 :=
  (wb_cache_second_call_no_requests [] "query text" "earbuds"
    allRateLimited allRateLimited (by decide) rfl).2.1

/-- C6: `get_wb_market_data` retries only on 429 — three consecutive 429s
give 3 requests with backoff sleeps `8, 16, 32` seconds (base, 2×base,
4×base) and the empty snapshot — while an HTTP error status or a network
failure on the first request returns the empty snapshot immediately, with
one request and no backoff sleep; an empty listing also yields the empty
snapshot.  (In the model every outcome returns a snapshot, mirroring that
the Python catches all exceptions.) -/
theorem wb_retry_backoff_and_failure_empty
    (cache : WBCache) (query keyword : String) (r : ℕ → WBResponse)
    (hterm : resolveSearchTerm query keyword ≠ "")
    (hmiss : cache.lookup (resolveSearchTerm query keyword) = none) :
    let out := get_wb_market_data cache query keyword r
    ((r 0 = .rateLimited ∧ r 1 = .rateLimited ∧ r 2 = .rateLimited) →
      out.result = wbEmpty ∧ out.requests = 3 ∧
      out.sleeps = [BASE_DELAY, 2 * BASE_DELAY, 4 * BASE_DELAY]) ∧
    (r 0 = .httpError → out.result = wbEmpty ∧ out.requests = 1 ∧ out.sleeps = []) ∧
    (r 0 = .netError → out.result = wbEmpty ∧ out.requests = 1 ∧ out.sleeps = []) ∧
    (r 0 = .ok [] → out.result = wbEmpty ∧ out.requests = 1) := by
  simp only [get_wb_market_data, hmiss, if_neg hterm]
  refine ⟨?_, ?_, ?_, ?_⟩
  · rintro ⟨h0, h1, h2⟩
    simp [wbLoop, MAX_RETRIES, h0, h1, h2, BASE_DELAY]
    norm_num
  · intro h0
    simp [wbLoop, MAX_RETRIES, h0]
  · intro h0
    simp [wbLoop, MAX_RETRIES, h0]
  · intro h0
    simp [wbLoop, MAX_RETRIES, h0, wbParse]

/-- Witness for C6: all-429 trace gives 3 requests and the empty snapshot. -/
theorem wb_retry_backoff_and_failure_empty_witness :
    (get_wb_market_data [] "query text" "earbuds" allRateLimited).result = wbEmpty ∧
    (get_wb_market_data [] "query text" "earbuds" allRateLimited).requests = 3 := by
  have h := (wb_retry_backoff_and_failure_empty [] "query text" "earbuds"
    allRateLimited (by decide) rfl).1 ⟨rfl, rfl, rfl⟩
  exact ⟨h.1, h.2.1⟩


/-- Inserting into a descending-sorted list commutes with filtering by an
exact score: the insertion-sort step is stable. -/
theorem filter_orderedInsert_score (s : ℚ) (a : AnalyzedProduct)
    (l : List AnalyzedProduct) (hl : l.Sorted scoreGE) :
    (l.orderedInsert scoreGE a).filter (fun p => decide (p.total_score = s)) =
      if a.total_score = s
      then a :: l.filter (fun p => decide (p.total_score = s))
      else l.filter (fun p => decide (p.total_score = s)) := by
  induction l with
  | nil =>
    by_cases has : a.total_score = s <;> simp [List.orderedInsert, has]
  | cons b t ih =>
    rw [List.orderedInsert]
    by_cases hab : scoreGE a b
    · rw [if_pos hab]
      by_cases has : a.total_score = s <;> simp [List.filter_cons, has]
    · rw [if_neg hab]
      have hbt : t.Sorted scoreGE := hl.of_cons
      have hlt : a.total_score < b.total_score :=
        lt_of_not_le (by simpa [scoreGE] using hab)
      by_cases has : a.total_score = s
      · have hbs : ¬(b.total_score = s) := by
          intro hbs
          rw [has] at hlt
          rw [hbs] at hlt
          exact lt_irrefl s hlt
        simp [List.filter_cons, ih hbt, has, hbs]
      · simp [List.filter_cons, ih hbt, has]

/-- The ranking sort is stable: filtering the sorted list by any exact
score value returns those candidates in their original collection order. -/
theorem filter_sortByScoreDesc (l : List AnalyzedProduct) (s : ℚ) :
    (sortByScoreDesc l).filter (fun p => decide (p.total_score = s)) =
      l.filter (fun p => decide (p.total_score = s)) := by
  induction l with
  | nil => rfl
  | cons a t ih =>
    show ((a :: t).insertionSort scoreGE).filter _ = _
    rw [List.insertionSort,
      filter_orderedInsert_score s a _ (List.sorted_insertionSort scoreGE t)]
    unfold sortByScoreDesc at ih
    by_cases has : a.total_score = s <;> simp [List.filter_cons, has, ih]

/-- C7: the selection stage drops every candidate whose `source_url` is in
the publish ledger for the target platform before scoring; the output is
sorted by `total_score` descending; the sort is stable (ties keep original
collection order); and on the claim's concrete scenario — `A` (high score,
`u1` already in the ledger for telegram) and `B` — selecting with
`topN = 2` returns `[B]` only. -/
theorem selection_excludes_published_sorts_topN :
    (∀ (ledger : List PublishedPost) (raws : List RawProduct)
        (wb : RawProduct → ℚ × ℤ) (rate : ℚ) (top_n : ℕ) (p : AnalyzedProduct),
      p ∈ selectTop (analyzeStage ledger raws wb rate) top_n →
        is_already_published ledger p.raw.source_url "telegram" = false) ∧
    (∀ (ledger : List PublishedPost) (raws : List RawProduct)
        (wb : RawProduct → ℚ × ℤ) (rate : ℚ) (top_n : ℕ),
      (selectTop (analyzeStage ledger raws wb rate) top_n).Pairwise scoreGE) ∧
    (∀ (l : List AnalyzedProduct) (s : ℚ),
      (sortByScoreDesc l).filter (fun p => decide (p.total_score = s)) =
        l.filter (fun p => decide (p.total_score = s))) ∧
    selectTop (analyzeStage exLedger [prodA, prodB] exWB 12.5) 2
      = [analyze_product prodB 12.5 100 3] := by
  refine ⟨?_, ?_, filter_sortByScoreDesc, by decide⟩
  · intro ledger raws wb rate top_n p hp
    have h1 : p ∈ sortByScoreDesc (analyzeStage ledger raws wb rate) :=
      List.mem_of_mem_take hp
    have h2 : p ∈ analyzeStage ledger raws wb rate := by
      unfold sortByScoreDesc at h1
      exact (List.mem_insertionSort scoreGE).1 h1
    unfold analyzeStage at h2
    rcases List.mem_map.1 h2 with ⟨r, hr, rfl⟩
    rcases List.mem_filter.1 hr with ⟨-, hpred⟩
    have hraw : (analyze_product r rate (wb r).1 (wb r).2).raw = r := rfl
    rw [hraw]
    simpa using hpred
  · intro ledger raws wb rate top_n
    exact List.Pairwise.sublist (List.take_sublist _ _)
      (List.sorted_insertionSort scoreGE (analyzeStage ledger raws wb rate))

/-- Witness for C7: the kept candidate `B` of the concrete scenario is not
in the ledger for the target platform. -/
theorem selection_excludes_published_sorts_topN_witness :
    is_already_published exLedger
      (analyze_product prodB 12.5 100 3).raw.source_url "telegram" = false :=
  selection_excludes_published_sorts_topN.1 exLedger [prodA, prodB] exWB 12.5 2
    (analyze_product prodB 12.5 100 3) (by decide)

/-- C8: the publish loop skips every selected candidate whose `source_url`
has a ledger entry — on any platform — within the last 14 days, and every
candidate it keeps has no such entry. -/
theorem recency_excludes_any_platform
    (ledger : List PublishedPost) (now : ℤ) (top : List AnalyzedProduct)
    (p : AnalyzedProduct) :
    ((∃ e ∈ ledger, e.source_url = p.raw.source_url ∧ now - e.published_at ≤ 14) →
      p ∉ publishStageKept ledger now top) ∧
    (p ∈ publishStageKept ledger now top →
      ∀ e ∈ ledger, e.source_url = p.raw.source_url →
        ¬(now - e.published_at ≤ 14)) := by
  have key : ∀ e, e ∈ ledger → e.source_url = p.raw.source_url →
      now - e.published_at ≤ 14 →
      is_product_recently_published ledger now p.raw.source_url 14 = true := by
    intro e he hurl hrec
    unfold is_product_recently_published
    simp only [List.any_eq_true]
    exact ⟨e, he, by simp [hurl, hrec]⟩
  constructor
  · rintro ⟨e, he, hurl, hrec⟩ hmem
    rcases List.mem_filter.1 hmem with ⟨-, hpred⟩
    rw [key e he hurl hrec] at hpred
    simp at hpred
  · intro hmem e he hurl hrec
    rcases List.mem_filter.1 hmem with ⟨-, hpred⟩
    rw [key e he hurl hrec] at hpred
    simp at hpred

/-- Witness for C8: a candidate published to VK 5 days ago is excluded from
publication even when the target platform is Telegram. -/
theorem recency_excludes_any_platform_witness :
    analyze_product prodB 12.5 100 3 ∉
      publishStageKept recentLedger 100 [analyze_product prodB 12.5 100 3] :=
  (recency_excludes_any_platform recentLedger 100
    [analyze_product prodB 12.5 100 3] (analyze_product prodB 12.5 100 3)).1
    ⟨{ source_url := "u2", platform := "vk", image_url := "", published_at := 95 },
      by decide, by decide, by decide⟩

/-- C9: when a selected candidate's image URL was already used by a
published post, the pipeline clears `image_url` to the empty string,
changes nothing else (the result is exactly the candidate with
`raw.image_url` replaced), and keeps the candidate in the output: the
per-candidate map preserves length and membership. -/
theorem image_dedup_clears_image_only
    (ledger : List PublishedPost) (p : AnalyzedProduct)
    (h : is_image_already_published ledger p.raw.image_url = true) :
    (dedupImage ledger p).raw.image_url = "" ∧
    dedupImage ledger p = { p with raw := { p.raw with image_url := "" } } ∧
    (∀ top : List AnalyzedProduct,
      (top.map (dedupImage ledger)).length = top.length) ∧
    (∀ top : List AnalyzedProduct, p ∈ top →
      dedupImage ledger p ∈ top.map (dedupImage ledger)) := by
  have hne : p.raw.image_url ≠ "" := by
    intro h0
    rw [is_image_already_published, if_pos h0] at h
    cases h
  have heq : dedupImage ledger p = { p with raw := { p.raw with image_url := "" } } := by
    unfold dedupImage
    rw [if_pos ⟨hne, h⟩]
  exact ⟨by rw [heq], heq, fun top => List.length_map _ _,
    fun top hp => List.mem_map_of_mem _ hp⟩

/-- Witness for C9: the fixture candidate with the already-used image
`img1` has its image cleared. -/
theorem image_dedup_clears_image_only_witness :
    (dedupImage exLedger imgProduct).raw.image_url = "" :=
  (image_dedup_clears_image_only exLedger imgProduct (by decide)).1

/-- Counterexample for C10 as stated: the 1688 collector does not
deduplicate `source_url` — two upstream items with the same URL yield two
returned products with the same URL. -/
theorem collect1688_duplicate_source_urls_cex :
    ¬ (collect1688 true (some [dupItem, dupItem]) id (fun _ => "")
        "electronics" 20).Pairwise
      (fun a b => a.source_url ≠ b.source_url) := by
  decide

/-- C10 amended: the 1688 collector never returns a product with
`price_cny ≤ 0` (price-less upstream records are dropped), but uniqueness
of `source_url` is not guaranteed. -/
theorem collect1688_positive_prices
    (hasTok : Bool) (items : Option (List ApifyItem))
    (translate extractKeyword : String → String) (category : String)
    (limit : ℕ) (p : RawProduct)
    (hp : p ∈ collect1688 hasTok items translate extractKeyword category limit) :
    0 < p.price_cny := by
  unfold collect1688 at hp
  cases hasTok with
  | false => simp at hp
  | true =>
    simp only [Bool.not_true, Bool.false_eq_true, if_false] at hp
    cases items with
    | none => simp at hp
    | some its =>
      have hp' : p ∈ (if its = [] then []
          else (its.take limit).filterMap
            (mapItem translate extractKeyword category)) := hp
      by_cases hnil : its = []
      · rw [if_pos hnil] at hp'
        simp at hp'
      · rw [if_neg hnil] at hp'
        rcases List.mem_filterMap.1 hp' with ⟨it, hit, hmap⟩
        simp only [mapItem] at hmap
        split_ifs at hmap
        all_goals
          first
            | (obtain rfl := Option.some.inj hmap
               exact lt_of_not_le (by assumption))
            | simp at hmap

/-- Witness for C10's amended statement at a concrete collected product. -/
theorem collect1688_positive_prices_witness : 0 < dupProduct.price_cny :=
  collect1688_positive_prices true (some [dupItem]) id (fun _ => "")
    "electronics" 20 dupProduct (by decide)

end MainTheorems
